import Mathlib

/-!
Shallow embedding of the pubsub message-channel layer of the goboot
repository: channel registry, dead-letter routing, retry policy, the
UTF-8-safe truncation helper and the transport error translator.

Go strings are modelled as byte lists (`List Nat`, each entry below 256)
wherever byte-level behaviour matters (attribute values, the truncation
helper); identifiers and map keys are Lean strings converted to bytes via
`gstr` when they are stored as attribute values. Transport effects are
modelled as explicit action traces; a Go runtime panic (out-of-range
string index) is modelled as `Option.none`.
-/

/-- UTF-8 encoding of one Unicode code point, as bytes. -/
def utf8EncodeCharNat (c : Nat) : List Nat :=
  if c < 0x80 then [c]
  else if c < 0x800 then
    [0xC0 ||| (c >>> 6), 0x80 ||| (c &&& 0x3F)]
  else if c < 0x10000 then
    [0xE0 ||| (c >>> 12), 0x80 ||| ((c >>> 6) &&& 0x3F), 0x80 ||| (c &&& 0x3F)]
  else
    [0xF0 ||| (c >>> 18), 0x80 ||| ((c >>> 12) &&& 0x3F),
     0x80 ||| ((c >>> 6) &&& 0x3F), 0x80 ||| (c &&& 0x3F)]

/-- Bytes of the UTF-8 encoding of a Lean string, as a Go string value. -/
def gstr (s : String) : List Nat :=
  s.data.flatMap (fun c => utf8EncodeCharNat c.toNat)

/-- Go utf8.RuneStart: reports whether the byte could be the first byte of
an encoded rune (it is not a continuation byte). -/
def runeStart (b : Nat) : Bool :=
  b &&& 0xC0 != 0x80

/-- A UTF-8 continuation byte (0x80..0xBF). -/
def contByte (b : Nat) : Bool :=
  decide (0x80 ≤ b) && decide (b ≤ 0xBF)

/-- Go utf8.ValidString: reports whether the byte string consists entirely
of valid UTF-8-encoded runes (rejecting overlong forms, surrogates and
values above U+10FFFF). -/
def utf8ValidString : List Nat → Bool
  | [] => true
  | b :: rest =>
    if b ≤ 0x7F then utf8ValidString rest
    else if b < 0xC2 then false
    else if b ≤ 0xDF then
      match rest with
      | b1 :: rest2 => contByte b1 && utf8ValidString rest2
      | [] => false
    else if b ≤ 0xEF then
      match rest with
      | b1 :: b2 :: rest3 =>
        (if b = 0xE0 then decide (0xA0 ≤ b1) && decide (b1 ≤ 0xBF)
         else if b = 0xED then decide (0x80 ≤ b1) && decide (b1 ≤ 0x9F)
         else contByte b1) && contByte b2 && utf8ValidString rest3
      | _ => false
    else if b ≤ 0xF4 then
      match rest with
      | b1 :: b2 :: b3 :: rest4 =>
        (if b = 0xF0 then decide (0x90 ≤ b1) && decide (b1 ≤ 0xBF)
         else if b = 0xF4 then decide (0x80 ≤ b1) && decide (b1 ≤ 0x8F)
         else contByte b1) && contByte b2 && contByte b3 && utf8ValidString rest4
      | _ => false
    else false

/-- The backward scan of trimLeftBytes: starting at index lastRune,
decrement while the byte at that index is not a rune start. Reading an
index outside the string is a Go runtime panic, modelled as none. -/
def trimLastRune (str : List Nat) : Nat → Option Nat
  | 0 => some 0
  | n + 1 =>
    match str.get? (n + 1) with
    | none => none
    | some b => if runeStart b then some (n + 1) else trimLastRune str n

/-- Go trimLeftBytes: trims a string so it has at most maxBytes bytes,
removing a trailing partial rune. none models a runtime panic
(out-of-range string index). -/
def trimLeftBytes (str : List Nat) (maxBytes : Nat) : Option (List Nat) :=
  if str.length < maxBytes then some str
  else
    let res := str.take maxBytes
    if utf8ValidString res then some res
    else
      match trimLastRune str maxBytes with
      | none => none
      | some lastRune => some (res.take lastRune)

/-- Digit accumulation for strconv.ParseInt: all bytes must be ASCII
digits. -/
def digitsVal : List Nat → Nat → Option Nat
  | [], acc => some acc
  | d :: rest, acc =>
    if 48 ≤ d ∧ d ≤ 57 then digitsVal rest (acc * 10 + (d - 48)) else none

/-- Go strconv.ParseInt(s, 10, 64): optional sign, at least one decimal
digit, value within the signed 64-bit range; anything else is an error
(none). -/
def parseInt64 (s : List Nat) : Option Int :=
  match s with
  | [] => none
  | c :: rest =>
    let neg := c = 45
    let digits := if c = 43 ∨ c = 45 then rest else s
    match digits with
    | [] => none
    | _ =>
      match digitsVal digits 0 with
      | none => none
      | some n =>
        let v : Int := if neg then -(n : Int) else (n : Int)
        if v < -(2 ^ 63) ∨ 2 ^ 63 - 1 < v then none else some v

/-- Signed 64-bit wraparound, as Go int64 addition overflows. -/
def wrapInt64 (i : Int) : Int :=
  (i + 2 ^ 63) % 2 ^ 64 - 2 ^ 63

/-- Decimal digits of a natural number as ASCII bytes, most significant
first; the fuel argument bounds the recursion and is always sufficient. -/
def natDigitsAux : Nat → Nat → List Nat → List Nat
  | 0, _, acc => acc
  | fuel + 1, n, acc =>
    let d := 48 + n % 10
    if n / 10 = 0 then d :: acc else natDigitsAux fuel (n / 10) (d :: acc)

/-- Go strconv.FormatInt(i, 10): the decimal representation, with a leading
minus sign for negative values, as ASCII bytes. -/
def formatInt64 (i : Int) : List Nat :=
  match i with
  | .ofNat n => natDigitsAux (n + 1) n []
  | .negSucc m => 45 :: natDigitsAux (m + 2) (m + 1) []

/-- Lookup in a Go map modelled as an association list. -/
def mapLookup {α : Type} (m : List (String × α)) (k : String) : Option α :=
  match m with
  | [] => none
  | (k₁, v) :: rest => if k₁ = k then some v else mapLookup rest k

/-- Insert-or-overwrite in a Go map modelled as an association list. -/
def mapInsert {α : Type} (m : List (String × α)) (k : String) (v : α) :
    List (String × α) :=
  match m with
  | [] => [(k, v)]
  | (k₁, v₁) :: rest =>
    if k₁ = k then (k, v) :: rest else (k₁, v₁) :: mapInsert rest k v

/-- Channel is a message channel with a topic ID and optionally a
subscription. MaxRetryAge is a Go time.Duration in nanoseconds. -/
structure Channel where
  ID : String
  TopicID : String
  SubscriptionID : String
  MaxRetryAge : Int
deriving DecidableEq, Repr

/-- The registry part of the pubsub Service: the channels map and the
optional dead-letter channel. -/
structure Service where
  Channels : List (String × Channel)
  DeadLetterChannel : Option Channel
deriving DecidableEq, Repr

/-- The relevant fields of a raw gcloud pubsub message. -/
structure Message where
  ID : String
  Data : List Nat
  Attributes : List (String × List Nat)
  PublishTime : Int
deriving DecidableEq, Repr

/-- RichMessage embeds the raw pubsub message with back-references to the
owning service and channel. -/
structure RichMessage where
  Message : Message
  Service : Service
  Channel : Channel
deriving DecidableEq, Repr

/-- Go time.Minute * 2 in nanoseconds, the default MaxRetryAge. -/
def twoMinutes : Int := 120000000000

/-- addChannel inserts or overwrites the channel by its ID. -/
def addChannel (s : Service) (ch : Channel) : Service :=
  { s with Channels := mapInsert s.Channels ch.ID ch }

/-- WithChannel option: fills MaxRetryAge with the 2-minute default when it
is zero, then registers the channel. -/
def withChannel (ch : Channel) (s : Service) : Service :=
  let ch₁ := if ch.MaxRetryAge = 0 then { ch with MaxRetryAge := twoMinutes } else ch
  addChannel s ch₁

/-- WithDeadLetter option: fills an empty ID with the default name
"dead-letter", registers the channel, and records it as the dead-letter
target. -/
def withDeadLetter (ch : Channel) (s : Service) : Service :=
  let ch₁ := if ch.ID = "" then { ch with ID := "dead-letter" } else ch
  let s₁ := addChannel s ch₁
  { s₁ with DeadLetterChannel := some ch₁ }

/-- Service.Channel: the raw map access, which yields none (a nil pointer)
for an unknown ID. -/
def Service.channel (s : Service) (channelID : String) : Option Channel :=
  mapLookup s.Channels channelID

/-- Go errors relevant to this layer. grpcStatus models an error carrying
a gRPC status (status.FromError reports ok for exactly these); plain
models any other error value; errorf and wrapf model errors.Errorf and
errors.Wrapf, the latter keeping its cause inspectable. -/
inductive GoErr where
  | closed
  | grpcStatus (code : Nat) (msg : String)
  | plain (msg : String)
  | errorf (fmt : String) (args : List (List Nat))
  | wrapf (fmt : String) (args : List (List Nat)) (cause : GoErr)
deriving DecidableEq, Repr

/-- status.FromError reports ok exactly for errors carrying a gRPC
status. -/
def statusOk : GoErr → Bool
  | .grpcStatus _ _ => true
  | _ => false

/-- The code of the gRPC status attached to an error. -/
def statusCode : GoErr → Nat
  | .grpcStatus c _ => c
  | _ => 2

/-- grpc codes.Canceled. -/
def codeCanceled : Nat := 1

/-- The cause carried by a wrapped error, if any. -/
def causeOf : GoErr → Option GoErr
  | .wrapf _ _ c => some c
  | _ => none

/-- translateError: a nil error stays nil; an error that is not a gRPC
status error, or whose status code is Canceled, becomes the canonical
ErrClosed; any other error is wrapped with the given message. -/
def translateError (err : Option GoErr) (wrapMsg : String) (args : List (List Nat)) :
    Option GoErr :=
  match err with
  | none => none
  | some e =>
    if !statusOk e || statusCode e == codeCanceled then some .closed
    else some (.wrapf wrapMsg args e)

/-- A transport action taken while disposing of a message. -/
inductive PubAction where
  | publish (topicID : String) (data : List Nat) (attrs : List (String × List Nat))
  | ack
  | nack
deriving DecidableEq, Repr

/-- The outcome of DeadLetter or RetryableError: the transport actions
taken in order, the returned error, and the attribute map of the original
envelope after the call (the code never writes to it). -/
structure RouteResult where
  actions : List PubAction
  err : Option GoErr
  origAttributes : List (String × List Nat)
deriving DecidableEq, Repr

/-- The attribute map DeadLetter builds for the republished message: a
clone of the original attributes plus the provenance attributes; none
models the panic of trimLeftBytes. -/
def deadLetterAttrs (msg : RichMessage) (causeText : List Nat) :
    Option (List (String × List Nat)) :=
  match trimLeftBytes causeText 1024 with
  | none => none
  | some trimmed =>
    let m₀ := msg.Message.Attributes
    let m₁ := mapInsert m₀ "originalMessageID" (gstr msg.Message.ID)
    let m₂ := mapInsert m₁ "originalTopicID" (gstr msg.Channel.TopicID)
    let m₃ := mapInsert m₂ "originalSubscriptionID" (gstr msg.Channel.SubscriptionID)
    let m₄ := mapInsert m₃ "error" trimmed
    some (match mapLookup m₄ "deadLetterCount" with
      | some val =>
        match parseInt64 val with
        | some i => mapInsert m₄ "deadLetterCount" (formatInt64 (wrapInt64 (i + 1)))
        | none => m₄
      | none => mapInsert m₄ "deadLetterCount" (gstr "1"))

/-- RichMessage.DeadLetter: requires a configured dead-letter channel,
builds the provenance attributes, publishes a copy to the dead-letter
topic (the publish outcome is the pubErr parameter), then acks the
original on success or nacks it and returns the wrapped error on
failure. -/
def deadLetter (msg : RichMessage) (causeText : List Nat) (pubErr : Option GoErr) :
    Option RouteResult :=
  match msg.Service.DeadLetterChannel with
  | none =>
    some ⟨[], some (.errorf "no deadletter channel configured" []),
          msg.Message.Attributes⟩
  | some dlc =>
    match deadLetterAttrs msg causeText with
    | none => none
    | some newMap =>
      match pubErr with
      | some e =>
        some ⟨[.publish dlc.TopicID msg.Message.Data newMap, .nack],
              some (.wrapf "failed to sent message to dead letter topic %q"
                     [gstr dlc.TopicID] e),
              msg.Message.Attributes⟩
      | none =>
        some ⟨[.publish dlc.TopicID msg.Message.Data newMap, .ack], none,
              msg.Message.Attributes⟩

/-- RichMessage.RetryableError: when the age of the message (now minus
PublishTime) exceeds the channel MaxRetryAge, delegate to DeadLetter;
otherwise nack and return no error. -/
def retryableError (now : Int) (msg : RichMessage) (causeText : List Nat)
    (pubErr : Option GoErr) : Option RouteResult :=
  if now - msg.Message.PublishTime > msg.Channel.MaxRetryAge then
    deadLetter msg causeText pubErr
  else
    some ⟨[.nack], none, msg.Message.Attributes⟩

/-- Service.Receive: looks up the channel, requires a subscription, then
runs the blocking receive loop. The stream parameter lists the raw
messages the transport delivers before the context ends; recvErr is the
error the underlying Receive returns. The result is the list of envelopes
handed to the callback and the translated returned error. -/
def receive (s : Service) (channelID : String) (stream : List Message)
    (recvErr : Option GoErr) : List RichMessage × Option GoErr :=
  match mapLookup s.Channels channelID with
  | none => ([], some (.errorf "channel %q not found" [gstr channelID]))
  | some ch =>
    if ch.SubscriptionID = "" then
      ([], some (.errorf "channel %q does not have a subscription" [gstr channelID]))
    else
      (stream.map (fun m => ⟨m, s, ch⟩),
       translateError recvErr "receiving message from subscription %q failed"
         [gstr ch.SubscriptionID])

/-- The receive loop of ReceiveNr: each delivered message is acked and
collected; once the collection reaches nrOfMessages the context is
cancelled and no further message is delivered. Returns the collected
envelopes and the IDs of the acked messages in order. -/
def receiveNrLoop (s : Service) (ch : Channel) (nrOfMessages : Int) :
    List Message → List RichMessage → List String → List RichMessage × List String
  | [], msgs, acks => (msgs, acks)
  | m :: rest, msgs, acks =>
    let msgs₁ := msgs ++ [⟨m, s, ch⟩]
    let acks₁ := acks ++ [m.ID]
    if nrOfMessages ≤ (msgs₁.length : Int) then (msgs₁, acks₁)
    else receiveNrLoop s ch nrOfMessages rest msgs₁ acks₁

/-- Service.ReceiveNr: looks up the channel, runs the counting receive
loop, and returns the collected messages, or the translated error when the
underlying Receive fails. -/
def receiveNr (s : Service) (channelID : String) (nrOfMessages : Int)
    (stream : List Message) (recvErr : Option GoErr) :
    Except GoErr (List RichMessage × List String) :=
  match mapLookup s.Channels channelID with
  | none => .error (.errorf "channel %q not found" [gstr channelID])
  | some ch =>
    let r := receiveNrLoop s ch nrOfMessages stream [] []
    match translateError recvErr "receiving message from subscription %q failed"
        [gstr ch.SubscriptionID] with
    | some te => .error te
    | none => .ok r

/-- Service.PublishEvent: looks up the channel, marshals the payload (the
marshal outcome is a parameter since serialization is external), publishes
and translates a publish failure. -/
def publishEvent (s : Service) (channelID : String) (eventName : String)
    (payload : Except GoErr (List Nat)) (pubErr : Option GoErr) : Option GoErr :=
  match mapLookup s.Channels channelID with
  | none => some (.errorf "channel %q not found" [gstr channelID])
  | some ch =>
    match payload with
    | .error e =>
      some (.wrapf "failed to marshal payload for event %q on t %q"
             [gstr eventName, gstr ch.TopicID] e)
    | .ok _ =>
      translateError pubErr "could not publish event %q to t %q"
        [gstr eventName, gstr ch.TopicID]

/-- Service.DeleteChannel: looks up the channel; deletes the subscription
when one is configured and it exists, then the topic when it exists;
absence of either resource is not an error. The transport outcomes are
parameters. -/
def deleteChannel (s : Service) (channelID : String)
    (subExists : Except GoErr Bool) (subDelete : Option GoErr)
    (topicExists : Except GoErr Bool) (topicDelete : Option GoErr) : Option GoErr :=
  match mapLookup s.Channels channelID with
  | none => some (.errorf "channel %q not found" [gstr channelID])
  | some ch =>
    let subStep : Option (Option GoErr) :=
      if ch.SubscriptionID = "" then none
      else
        match subExists with
        | .error e =>
          some (translateError (some e) "failed to retrieve subscription %q"
                 [gstr ch.SubscriptionID])
        | .ok true =>
          match subDelete with
          | some e =>
            some (translateError (some e) "failed to delete subscription %q"
                   [gstr ch.SubscriptionID])
          | none => none
        | .ok false => none
    match subStep with
    | some r => r
    | none =>
      match topicExists with
      | .error e =>
        translateError (some e) "failed to retrieve topic %q" [gstr ch.TopicID]
      | .ok true =>
        match topicDelete with
        | some e =>
          translateError (some e) "failed to delete topic %q" [gstr ch.TopicID]
        | none => none
      | .ok false => none

/-- The test channel fixture of the repository test-suite. -/
def chTest : Channel :=
  ⟨"test-channel", "test-topic", "test-subscription", twoMinutes⟩

/-- A publish-only channel (no subscription). -/
def chNoSub : Channel :=
  ⟨"without-subscription", "test-topic-without-subscription", "", twoMinutes⟩

/-- The dead-letter channel fixture, registered with a zero MaxRetryAge. -/
def chDead : Channel :=
  ⟨"dead-letter", "dead-letter-topic", "dead-letter-subscription", 0⟩

/-- A service with a test channel, a publish-only channel and a dead-letter
channel. -/
def svcDL : Service :=
  ⟨[("test-channel", chTest), ("without-subscription", chNoSub),
    ("dead-letter", chDead)], some chDead⟩

/-- A service with channels but no dead-letter channel. -/
def svcNoDL : Service :=
  ⟨[("test-channel", chTest)], none⟩

/-- A service with no channels at all. -/
def emptySvc : Service := ⟨[], none⟩

/-- An envelope whose deadLetterCount attribute does not parse as an
integer. -/
def msgAbc : RichMessage :=
  ⟨⟨"id-1", gstr "payload", [("deadLetterCount", gstr "abc")], 0⟩, svcDL, chTest⟩

/-- An envelope already dead-lettered once (deadLetterCount is "1"). -/
def msgOne : RichMessage :=
  ⟨⟨"id-2", gstr "payload", [("deadLetterCount", gstr "1")], 0⟩, svcDL, chTest⟩

/-- An envelope with no attributes, published at time 0. -/
def msgPlain : RichMessage :=
  ⟨⟨"id-3", gstr "payload", [], 0⟩, svcDL, chTest⟩

/-- An envelope whose service has no dead-letter channel. -/
def msgNoDL : RichMessage :=
  ⟨⟨"id-4", gstr "payload", [], 0⟩, svcNoDL, chTest⟩

/-- A raw message fixture. -/
def m0 : Message := ⟨"m0", [], [], 0⟩

/-- The attribute map DeadLetter builds for msgPlain with cause "boom". -/
def attrsPlain : List (String × List Nat) :=
  [("originalMessageID", gstr "id-3"), ("originalTopicID", gstr "test-topic"),
   ("originalSubscriptionID", gstr "test-subscription"), ("error", gstr "boom"),
   ("deadLetterCount", gstr "1")]

/-- The branch condition of translateError: the error does not carry a
gRPC status, or its status code is Canceled. -/
def isCancellation (e : GoErr) : Bool :=
  !statusOk e || statusCode e == codeCanceled

/-- Lookup after an insert at the same key finds the inserted value. -/
theorem mapLookup_insert_self {α : Type} (m : List (String × α)) (k : String) (v : α) :
    mapLookup (mapInsert m k v) k = some v := by
  induction m with
  | nil => simp [mapInsert, mapLookup]
  | cons hd tl ih =>
    obtain ⟨k₁, v₁⟩ := hd
    by_cases h : k₁ = k <;> simp [mapInsert, mapLookup, h, ih]

theorem mapLookup_insert_other {α : Type} (m : List (String × α)) (k k₂ : String)
    (v : α) (h : k ≠ k₂) :
    mapLookup (mapInsert m k v) k₂ = mapLookup m k₂ := by
  induction m with
  | nil => simp [mapInsert, mapLookup, h]
  | cons hd tl ih =>
    obtain ⟨k₁, v₁⟩ := hd
    by_cases h₁ : k₁ = k
    · subst h₁
      simp [mapInsert, mapLookup, h]
    · simp [mapInsert, mapLookup, h₁, ih]

/-- C5: trimLeftBytes applied to the three 3-byte code points of
"日本語" yields the empty string for byte limits 0, 1 and 2, the first
code point for limits 3, 4 and 5, and the first two code points for
limit 6, never emitting a partial code point. -/
theorem trimLeftBytes_nihongo :
    trimLeftBytes (gstr "日本語") 0 = some (gstr "") ∧
    trimLeftBytes (gstr "日本語") 1 = some (gstr "") ∧
    trimLeftBytes (gstr "日本語") 2 = some (gstr "") ∧
    trimLeftBytes (gstr "日本語") 3 = some (gstr "日") ∧
    trimLeftBytes (gstr "日本語") 4 = some (gstr "日") ∧
    trimLeftBytes (gstr "日本語") 5 = some (gstr "日") ∧
    trimLeftBytes (gstr "日本語") 6 = some (gstr "日本") := by
  decide

/-- C10: trimLeftBytes panics (models as none) when the input length
equals maxBytes and the input is not valid UTF-8: the backward scan reads
the byte at index maxBytes, one past the end of the string. -/
theorem trimLeftBytes_panics_at_full_length :
    trimLeftBytes [0xFF] 1 = none ∧ ([0xFF] : List Nat).length = 1 := by
  decide

/-- C4 counterexample: WithDeadLetter registers a dead-letter channel with
zero MaxRetryAge without filling the 2-minute default, so the registered
channel keeps MaxRetryAge 0. -/
theorem withDeadLetter_keeps_zero_maxRetryAge :
    (Service.channel
        (withDeadLetter ⟨"", "dead-letter-topic", "dead-letter-subscription", 0⟩
          emptySvc) "dead-letter").map Channel.MaxRetryAge = some 0 ∧
    (0 : Int) ≠ twoMinutes := by
  decide

/-- C3 counterexample: a deadLetterCount attribute that does not parse as
an integer is left unchanged rather than being reset to "1". -/
theorem deadLetterCount_unparsed_ctex :
    (deadLetterAttrs msgAbc (gstr "boom")).map
        (fun m => mapLookup m "deadLetterCount") = some (some (gstr "abc")) ∧
    gstr "abc" ≠ gstr "1" := by
  decide

/-- C7 counterexample: the registry lookup Service.Channel is a raw map
access; for an unknown ID it yields none (a nil channel pointer) and no
error at all. -/
theorem channel_lookup_nil_ctex :
    Service.channel emptySvc "unknown" = none := by
  decide

/-- C8 counterexample: ReceiveNr with count 0 does not collect exactly 0
messages: the cancellation check runs only after a message has already
been acked and collected, so one message is collected. -/
theorem receiveNr_zero_count_ctex :
    receiveNr svcDL "test-channel" 0 [m0] none =
      .ok ([⟨m0, svcDL, chTest⟩], ["m0"]) ∧
    [(⟨m0, svcDL, chTest⟩ : RichMessage)].length ≠ 0 := by
  exact ⟨rfl, by decide⟩

/-- C2: DeadLetter on an envelope whose service has no dead-letter channel
returns the configuration error and performs no transport action; with a
dead-letter channel, after a successful publish of the copy it acks the
original and returns no error, and after a failed publish it nacks the
original and returns the wrapped publish error. -/
theorem deadLetter_spec (msg : RichMessage) (cause : List Nat) (pubErr : Option GoErr) :
    (msg.Service.DeadLetterChannel = none →
      deadLetter msg cause pubErr =
        some ⟨[], some (.errorf "no deadletter channel configured" []),
              msg.Message.Attributes⟩) ∧
    (∀ dlc attrs, msg.Service.DeadLetterChannel = some dlc →
      deadLetterAttrs msg cause = some attrs →
      (pubErr = none →
        deadLetter msg cause pubErr =
          some ⟨[.publish dlc.TopicID msg.Message.Data attrs, .ack], none,
                msg.Message.Attributes⟩) ∧
      (∀ e, pubErr = some e →
        deadLetter msg cause pubErr =
          some ⟨[.publish dlc.TopicID msg.Message.Data attrs, .nack],
                some (.wrapf "failed to sent message to dead letter topic %q"
                       [gstr dlc.TopicID] e),
                msg.Message.Attributes⟩)) := by
  refine ⟨fun h => by simp [deadLetter, h], fun dlc attrs h₁ h₂ => ⟨?_, ?_⟩⟩
  · intro hp
    simp [deadLetter, h₁, h₂, hp]
  · intro e hp
    simp [deadLetter, h₁, h₂, hp]

/-- Witness for C2: the success path on a concrete envelope and the
missing-dead-letter-channel path on another. -/
theorem deadLetter_spec_witness :
    deadLetter msgPlain (gstr "boom") none =
      some ⟨[.publish "dead-letter-topic" (gstr "payload") attrsPlain, .ack], none,
            msgPlain.Message.Attributes⟩ ∧
    deadLetter msgNoDL (gstr "boom") none =
      some ⟨[], some (.errorf "no deadletter channel configured" []),
            msgNoDL.Message.Attributes⟩ :=
  ⟨((deadLetter_spec msgPlain (gstr "boom") none).2 chDead attrsPlain (by decide)
      (by decide)).1 rfl,
   (deadLetter_spec msgNoDL (gstr "boom") none).1 rfl⟩

/-- C1: when the age of the envelope (now minus PublishTime) is at most
the channel MaxRetryAge, RetryableError nacks, performs no publish and
returns no error; when the age exceeds MaxRetryAge it delegates to
DeadLetter and returns its result, acking the original on publish
success. -/
theorem retryableError_spec (now : Int) (msg : RichMessage) (cause : List Nat)
    (pubErr : Option GoErr) :
    (now - msg.Message.PublishTime ≤ msg.Channel.MaxRetryAge →
      retryableError now msg cause pubErr =
        some ⟨[.nack], none, msg.Message.Attributes⟩) ∧
    (now - msg.Message.PublishTime > msg.Channel.MaxRetryAge →
      retryableError now msg cause pubErr = deadLetter msg cause pubErr ∧
      (∀ dlc attrs, msg.Service.DeadLetterChannel = some dlc →
        deadLetterAttrs msg cause = some attrs → pubErr = none →
        retryableError now msg cause pubErr =
          some ⟨[.publish dlc.TopicID msg.Message.Data attrs, .ack], none,
                msg.Message.Attributes⟩)) := by
  constructor
  · intro h
    simp [retryableError, not_lt.mpr h]
  · intro h
    refine ⟨by simp [retryableError, h], fun dlc attrs h₁ h₂ hp => ?_⟩
    simp [retryableError, h, deadLetter, h₁, h₂, hp]

/-- Witness for C1: an envelope published at time 0 against the 2-minute
retry age, evaluated 119 seconds later (nack) and 121 seconds later
(dead-letter publish then ack). -/
theorem retryableError_spec_witness :
    retryableError 119000000000 msgPlain (gstr "boom") none =
      some ⟨[.nack], none, msgPlain.Message.Attributes⟩ ∧
    retryableError 121000000000 msgPlain (gstr "boom") none =
      some ⟨[.publish "dead-letter-topic" (gstr "payload") attrsPlain, .ack], none,
            msgPlain.Message.Attributes⟩ :=
  ⟨(retryableError_spec 119000000000 msgPlain (gstr "boom") none).1 (by decide),
   ((retryableError_spec 121000000000 msgPlain (gstr "boom") none).2
      (by decide)).2 chDead attrsPlain (by decide) (by decide) rfl⟩

/-- C6: translateError maps a nil error to nil, maps every error matching
the cancellation/shutdown branch condition to the single canonical
ErrClosed value regardless of the underlying code, and wraps every other
error with the contextual message while keeping the cause inspectable. -/
theorem translateError_spec (e : GoErr) (wrapMsg : String) (args : List (List Nat)) :
    translateError none wrapMsg args = none ∧
    (isCancellation e = true →
      translateError (some e) wrapMsg args = some .closed) ∧
    (∀ code msg code₂ msg₂, isCancellation (.grpcStatus code msg) = true →
      isCancellation (.grpcStatus code₂ msg₂) = true →
      translateError (some (.grpcStatus code msg)) wrapMsg args =
        translateError (some (.grpcStatus code₂ msg₂)) wrapMsg args) ∧
    (isCancellation e = false →
      translateError (some e) wrapMsg args = some (.wrapf wrapMsg args e) ∧
      causeOf (.wrapf wrapMsg args e) = some e) := by
  refine ⟨rfl, fun h => ?_, fun code msg code₂ msg₂ h₁ h₂ => ?_, fun h => ?_⟩
  · simp only [translateError, isCancellation] at h ⊢
    simp [h]
  · simp only [translateError, isCancellation] at h₁ h₂ ⊢
    simp [h₁, h₂]
  · simp only [translateError, isCancellation] at h ⊢
    simp [h, causeOf]

/-- Witness for C6: a Canceled status error becomes ErrClosed, a NotFound
status error is wrapped with its cause preserved. -/
theorem translateError_spec_witness :
    translateError none "m" [] = none ∧
    translateError (some (.grpcStatus 1 "x")) "m" [] = some .closed ∧
    (translateError (some (.grpcStatus 5 "y")) "m" [] =
        some (.wrapf "m" [] (.grpcStatus 5 "y")) ∧
      causeOf (.wrapf "m" [] (.grpcStatus 5 "y")) = some (.grpcStatus 5 "y")) :=
  ⟨(translateError_spec (.grpcStatus 1 "x") "m" []).1,
   (translateError_spec (.grpcStatus 1 "x") "m" []).2.1 (by decide),
   (translateError_spec (.grpcStatus 5 "y") "m" []).2.2.2 (by decide)⟩

/-- Lookup at a key other than deadLetterCount passes through the final
count update of deadLetterAttrs. -/
theorem lookup_count_update (m : List (String × List Nat)) (k : String)
    (h : k ≠ "deadLetterCount") :
    mapLookup (match mapLookup m "deadLetterCount" with
      | some val =>
        match parseInt64 val with
        | some i => mapInsert m "deadLetterCount" (formatInt64 (wrapInt64 (i + 1)))
        | none => m
      | none => mapInsert m "deadLetterCount" (gstr "1")) k = mapLookup m k := by
  split
  · split
    · exact mapLookup_insert_other _ _ _ _ (Ne.symm h)
    · rfl
  · exact mapLookup_insert_other _ _ _ _ (Ne.symm h)

/-- The deadLetterCount value seen by the count update is the one of the
original attribute map: the four provenance inserts use other keys. -/
theorem deadLetterAttrs_count_key (msg : RichMessage) (t : List Nat) :
    mapLookup
      (mapInsert (mapInsert (mapInsert
          (mapInsert msg.Message.Attributes "originalMessageID" (gstr msg.Message.ID))
          "originalTopicID" (gstr msg.Channel.TopicID))
          "originalSubscriptionID" (gstr msg.Channel.SubscriptionID))
          "error" t) "deadLetterCount" =
      mapLookup msg.Message.Attributes "deadLetterCount" := by
  rw [mapLookup_insert_other _ _ _ _ (by decide),
      mapLookup_insert_other _ _ _ _ (by decide),
      mapLookup_insert_other _ _ _ _ (by decide),
      mapLookup_insert_other _ _ _ _ (by decide)]

/-- C3 amended: when the original attributes carry a deadLetterCount that
parses as a base-10 int64, the republished message carries that value
incremented by 1 (in int64 arithmetic) re-encoded as text; when the
attribute is absent the republished message carries "1"; when it is
present but does not parse as an integer it is left at its original
value. -/
theorem deadLetterCount_amended (msg : RichMessage) (cause : List Nat)
    (t : List Nat) (ht : trimLeftBytes cause 1024 = some t) :
    (mapLookup msg.Message.Attributes "deadLetterCount" = none →
      (deadLetterAttrs msg cause).map (fun m => mapLookup m "deadLetterCount") =
        some (some (gstr "1"))) ∧
    (∀ v i, mapLookup msg.Message.Attributes "deadLetterCount" = some v →
      parseInt64 v = some i →
      (deadLetterAttrs msg cause).map (fun m => mapLookup m "deadLetterCount") =
        some (some (formatInt64 (wrapInt64 (i + 1))))) ∧
    (∀ v, mapLookup msg.Message.Attributes "deadLetterCount" = some v →
      parseInt64 v = none →
      (deadLetterAttrs msg cause).map (fun m => mapLookup m "deadLetterCount") =
        some (some v)) := by
  refine ⟨fun h => ?_, fun v i h hp => ?_, fun v h hp => ?_⟩
  · simp [deadLetterAttrs, ht, deadLetterAttrs_count_key, h, mapLookup_insert_self]
  · simp [deadLetterAttrs, ht, deadLetterAttrs_count_key, h, hp, mapLookup_insert_self]
  · simp [deadLetterAttrs, ht, deadLetterAttrs_count_key, h, hp]

/-- Witness for C3 amended: a count of "1" becomes "2" on the second
dead-letter, and an absent count starts at "1". -/
theorem deadLetterCount_amended_witness :
    mapLookup msgOne.Message.Attributes "deadLetterCount" = some (gstr "1") ∧
    (deadLetterAttrs msgOne (gstr "boom")).map
        (fun m => mapLookup m "deadLetterCount") =
      some (some (formatInt64 (wrapInt64 (1 + 1)))) ∧
    formatInt64 (wrapInt64 (1 + 1)) = gstr "2" ∧
    (deadLetterAttrs msgPlain (gstr "other")).map
        (fun m => mapLookup m "deadLetterCount") = some (some (gstr "1")) :=
  ⟨by decide,
   (deadLetterCount_amended msgOne (gstr "boom") (gstr "boom") (by decide)).2.1
     (gstr "1") 1 (by decide) (by decide),
   by decide,
   (deadLetterCount_amended msgPlain (gstr "other") (gstr "other") (by decide)).1
     (by decide)⟩

/-- Lookup at a key other than the five provenance keys sees the original
attribute value in the map deadLetterAttrs builds. -/
theorem deadLetterAttrs_other_keys (msg : RichMessage) (cause : List Nat)
    (attrs : List (String × List Nat)) (h : deadLetterAttrs msg cause = some attrs)
    (k : String) (h₁ : k ≠ "originalMessageID") (h₂ : k ≠ "originalTopicID")
    (h₃ : k ≠ "originalSubscriptionID") (h₄ : k ≠ "error")
    (h₅ : k ≠ "deadLetterCount") :
    mapLookup attrs k = mapLookup msg.Message.Attributes k := by
  cases htrim : trimLeftBytes cause 1024 with
  | none => simp [deadLetterAttrs, htrim] at h
  | some t =>
    simp only [deadLetterAttrs, htrim, Option.some.injEq] at h
    subst h
    rw [lookup_count_update _ _ h₅,
        mapLookup_insert_other _ _ _ _ (Ne.symm h₄),
        mapLookup_insert_other _ _ _ _ (Ne.symm h₃),
        mapLookup_insert_other _ _ _ _ (Ne.symm h₂),
        mapLookup_insert_other _ _ _ _ (Ne.symm h₁)]

/-- C9: DeadLetter never mutates the original attribute mapping: the
original envelope keeps its attribute map in every outcome, and the map
built for the republished copy agrees with the original everywhere except
at the five provenance keys it adds to its own clone. -/
theorem deadLetter_no_mutation (msg : RichMessage) (cause : List Nat) :
    (∀ pubErr r, deadLetter msg cause pubErr = some r →
      r.origAttributes = msg.Message.Attributes) ∧
    (∀ attrs, deadLetterAttrs msg cause = some attrs →
      ∀ k, k ≠ "originalMessageID" → k ≠ "originalTopicID" →
        k ≠ "originalSubscriptionID" → k ≠ "error" → k ≠ "deadLetterCount" →
        mapLookup attrs k = mapLookup msg.Message.Attributes k) := by
  constructor
  · intro pubErr r h
    cases hdl : msg.Service.DeadLetterChannel with
    | none =>
      simp only [deadLetter, hdl, Option.some.injEq] at h
      rw [← h]
    | some dlc =>
      cases hda : deadLetterAttrs msg cause with
      | none => simp [deadLetter, hdl, hda] at h
      | some attrs =>
        cases pubErr with
        | none =>
          simp only [deadLetter, hdl, hda, Option.some.injEq] at h
          rw [← h]
        | some e =>
          simp only [deadLetter, hdl, hda, Option.some.injEq] at h
          rw [← h]
  · intro attrs h k h₁ h₂ h₃ h₄ h₅
    exact deadLetterAttrs_other_keys msg cause attrs h k h₁ h₂ h₃ h₄ h₅

/-- Witness for C9: the concrete success outcome keeps the original
attribute map, and a non-provenance key reads the same in the clone. -/
theorem deadLetter_no_mutation_witness :
    (⟨[.publish "dead-letter-topic" (gstr "payload") attrsPlain, .ack], none,
        msgPlain.Message.Attributes⟩ : RouteResult).origAttributes =
      msgPlain.Message.Attributes ∧
    mapLookup attrsPlain "other" = mapLookup msgPlain.Message.Attributes "other" :=
  ⟨(deadLetter_no_mutation msgPlain (gstr "boom")).1 none
      ⟨[.publish "dead-letter-topic" (gstr "payload") attrsPlain, .ack], none,
       msgPlain.Message.Attributes⟩ (by decide),
   (deadLetter_no_mutation msgPlain (gstr "boom")).2 attrsPlain (by decide) "other"
      (by decide) (by decide) (by decide) (by decide) (by decide)⟩

/-- C4 amended: a channel registered through WithChannel with zero
MaxRetryAge receives exactly the 2-minute default, but a dead-letter
channel registered through WithDeadLetter does not: its zero MaxRetryAge
is kept, both in the registry and as the dead-letter target. -/
theorem maxRetryAge_default_amended (ch : Channel) (s : Service)
    (h : ch.MaxRetryAge = 0) :
    (Service.channel (withChannel ch s) ch.ID).map Channel.MaxRetryAge =
      some twoMinutes ∧
    (withDeadLetter ch s).DeadLetterChannel.map Channel.MaxRetryAge = some 0 ∧
    (Service.channel (withDeadLetter ch s)
        (if ch.ID = "" then "dead-letter" else ch.ID)).map Channel.MaxRetryAge =
      some 0 := by
  refine ⟨?_, ?_, ?_⟩
  · simp [withChannel, addChannel, Service.channel, h, mapLookup_insert_self]
  · by_cases hid : ch.ID = "" <;> simp [withDeadLetter, addChannel, hid, h]
  · by_cases hid : ch.ID = ""
    · simp [withDeadLetter, addChannel, Service.channel, hid, h, mapLookup_insert_self]
    · simp [withDeadLetter, addChannel, Service.channel, hid, h, mapLookup_insert_self]

/-- Witness for C4 amended: a concrete channel with zero MaxRetryAge gets
2 minutes through WithChannel and keeps 0 through WithDeadLetter. -/
theorem maxRetryAge_default_amended_witness :
    (⟨"c", "t", "sub", 0⟩ : Channel).MaxRetryAge = 0 ∧
    (Service.channel (withChannel ⟨"c", "t", "sub", 0⟩ emptySvc) "c").map
        Channel.MaxRetryAge = some twoMinutes ∧
    (withDeadLetter ⟨"c", "t", "sub", 0⟩ emptySvc).DeadLetterChannel.map
        Channel.MaxRetryAge = some 0 :=
  ⟨rfl,
   (maxRetryAge_default_amended ⟨"c", "t", "sub", 0⟩ emptySvc rfl).1,
   (maxRetryAge_default_amended ⟨"c", "t", "sub", 0⟩ emptySvc rfl).2.1⟩

/-- C7 amended: Receive, ReceiveNr, PublishEvent and DeleteChannel each
return the not-found error for an unknown channel ID, and Receive on a
registered channel without subscription fails with the no-subscription
error; the registry lookup Service.Channel itself however returns none (a
nil channel) silently. -/
theorem lookup_not_found_amended (s : Service) (id : String) :
    (mapLookup s.Channels id = none →
      (∀ stream recvErr, receive s id stream recvErr =
        ([], some (.errorf "channel %q not found" [gstr id]))) ∧
      (∀ n stream recvErr, receiveNr s id n stream recvErr =
        .error (.errorf "channel %q not found" [gstr id])) ∧
      (∀ ev payload pubErr, publishEvent s id ev payload pubErr =
        some (.errorf "channel %q not found" [gstr id])) ∧
      (∀ se sd te td, deleteChannel s id se sd te td =
        some (.errorf "channel %q not found" [gstr id])) ∧
      Service.channel s id = none) ∧
    (∀ ch, mapLookup s.Channels id = some ch → ch.SubscriptionID = "" →
      ∀ stream recvErr, receive s id stream recvErr =
        ([], some (.errorf "channel %q does not have a subscription" [gstr id]))) := by
  constructor
  · intro h
    refine ⟨fun stream recvErr => ?_, fun n stream recvErr => ?_,
            fun ev payload pubErr => ?_, fun se sd te td => ?_, ?_⟩
    · simp [receive, h]
    · simp [receiveNr, h]
    · simp [publishEvent, h]
    · simp [deleteChannel, h]
    · simp [Service.channel, h]
  · intro ch hch hsub stream recvErr
    simp [receive, hch, hsub]

/-- Witness for C7 amended: the unknown-channel errors and the
no-subscription error on concrete services. -/
theorem lookup_not_found_amended_witness :
    receive emptySvc "unknown" [] none =
      ([], some (.errorf "channel %q not found" [gstr "unknown"])) ∧
    receiveNr emptySvc "unknown" 1 [] none =
      .error (.errorf "channel %q not found" [gstr "unknown"]) ∧
    Service.channel emptySvc "unknown" = none ∧
    receive svcDL "without-subscription" [] none =
      ([], some (.errorf "channel %q does not have a subscription"
                  [gstr "without-subscription"])) :=
  ⟨((lookup_not_found_amended emptySvc "unknown").1 rfl).1 [] none,
   ((lookup_not_found_amended emptySvc "unknown").1 rfl).2.1 1 [] none,
   ((lookup_not_found_amended emptySvc "unknown").1 rfl).2.2.2.2,
   (lookup_not_found_amended svcDL "without-subscription").2 chNoSub (by decide)
     rfl [] none⟩

/-- The counting receive loop consumes exactly the next k messages when k
is at least 1, the stream supplies them, and the target equals the
collected count plus k. -/
theorem receiveNrLoop_spec (s : Service) (ch : Channel) (n : Int) :
    ∀ (stream : List Message) (k : Nat) (msgs : List RichMessage)
      (acks : List String), 1 ≤ k → k ≤ stream.length →
      n = msgs.length + k →
      receiveNrLoop s ch n stream msgs acks =
        (msgs ++ (stream.take k).map (fun m => ⟨m, s, ch⟩),
         acks ++ (stream.take k).map Message.ID) := by
  intro stream
  induction stream with
  | nil =>
    intro k msgs acks hk hlen _
    simp at hlen
    omega
  | cons m rest ih =>
    intro k msgs acks hk hlen hn
    obtain ⟨k₁, rfl⟩ : ∃ j, k = j + 1 := ⟨k - 1, by omega⟩
    by_cases h1 : k₁ = 0
    · subst h1
      have hcond : n ≤ ((msgs ++ [(⟨m, s, ch⟩ : RichMessage)]).length : Int) := by
        simp
        omega
      simp [receiveNrLoop, hcond, List.take_succ_cons]
      intro hcontra
      exfalso
      simp at hcond
      omega
    · have hcond : ¬ n ≤ ((msgs ++ [(⟨m, s, ch⟩ : RichMessage)]).length : Int) := by
        simp
        omega
      have hih := ih k₁ (msgs ++ [(⟨m, s, ch⟩ : RichMessage)]) (acks ++ [m.ID])
        (by omega) (by simp at hlen; omega) (by simp; omega)
      simp [receiveNrLoop, hcond, hih, List.take_succ_cons]
      intro hcontra
      exfalso
      simp at hcond
      omega

/-- C8 amended: for a registered channel, a count of at least 1 and a
stream supplying at least count messages, ReceiveNr collects exactly the
first count messages, acking each in order, then cancels its loop; a
count of 0 or less still collects one message (see the counterexample). -/
theorem receiveNr_amended (s : Service) (id : String) (ch : Channel)
    (hch : mapLookup s.Channels id = some ch) (n : Int) (stream : List Message)
    (hn : 1 ≤ n) (hlen : n ≤ (stream.length : Int)) :
    receiveNr s id n stream none =
      .ok ((stream.take n.toNat).map (fun m => ⟨m, s, ch⟩),
           (stream.take n.toNat).map Message.ID) ∧
    ((stream.take n.toNat).length : Int) = n := by
  constructor
  · have hloop := receiveNrLoop_spec s ch n stream n.toNat [] [] (by omega)
      (by omega) (by simp; omega)
    simp only [List.nil_append] at hloop
    simp [receiveNr, hch, translateError, hloop]
  · simp [List.length_take]
    omega

/-- Witness for C8 amended: one message requested and one delivered. -/
theorem receiveNr_amended_witness :
    receiveNr svcDL "test-channel" 1 [m0] none =
      .ok ([⟨m0, svcDL, chTest⟩], ["m0"]) ∧
    (([m0].take (1 : Int).toNat).length : Int) = 1 :=
  ⟨(receiveNr_amended svcDL "test-channel" chTest rfl 1 [m0] (by decide)
      (by decide)).1,
   (receiveNr_amended svcDL "test-channel" chTest rfl 1 [m0] (by decide)
      (by decide)).2⟩
